import Mathlib

/-!
Verification of the network_change_verifications repository.

This file gives a shallow embedding of the pre/post network verification
scripts (interface_verifications.py, config_verifications.py,
common_setup_cleanup.py, pre_check.py, post_check.py) and proves or refutes
the specified properties of the snapshot store, the policy evaluation rules
and the normalizer.

Conventions of the embedding:
- The filesystem is a pair of a directory list and a (path, content)
  association list; open(path, "w") overwrites, os.mkdir adds a directory.
- A pyATS step verdict is modelled by the Verdict type; a step body that
  raises a result signal (failed/skipped/passed) ends the step with that
  verdict, a step body that finishes without a signal is passed by default,
  and an uncaught Python exception marks the step errored.
- A failed testcase setup section blocks the testcase: this is modelled by
  an Except value, where .error means the setup failed and no test section
  ran.
- JSON documents for interfaces are modelled by InterfaceData records:
  the scripts only ever read the fields oper_status, enabled, duplex_mode,
  counters.<name> and counters.rate.<name>, so those are the modelled keys;
  key absence is Option.none or absence from an association list.
- Python membership s1 in s2 on strings is the substring test pyStrIn.
-/

/-! ## Filesystem model -/

structure FS (α : Type) where
  dirs : List String
  files : List (String × α)
deriving DecidableEq

def pathExists (fs : FS α) (p : String) : Bool :=
  fs.dirs.contains p || (fs.files.lookup p).isSome

def isDir (fs : FS α) (p : String) : Bool :=
  fs.dirs.contains p

def mkdir (fs : FS α) (p : String) : FS α :=
  { fs with dirs := p :: fs.dirs }

def writeFile (fs : FS α) (p : String) (c : α) : FS α :=
  { fs with files := (p, c) :: fs.files }

def readFile (fs : FS α) (p : String) : Option α :=
  fs.files.lookup p

def joinPath (d f : String) : String := d ++ "/" ++ f

/-! ## Verdicts and interface data -/

inductive Verdict where
  | passed : String → Verdict
  | failed : String → Verdict
  | skipped : String → Verdict
  | errored : String → Verdict
deriving DecidableEq

def Verdict.isFail : Verdict → Bool
  | .failed _ => true
  | _ => false

structure CountersData where
  vals : List (String × Int)
  rate : Option (List (String × Int))
deriving DecidableEq

structure InterfaceData where
  oper_status : Option String
  enabled : Option Bool
  duplex_mode : Option String
  counters : Option CountersData
deriving DecidableEq

abbrev DevIntfs := List (String × InterfaceData)

/-! ## interface_errors testcase (interface_verifications.py lines 114-203) -/

/-- The tracked error counters (interface_verifications.py line 121). -/
def counter_error_keys : List String :=
  ["in_crc_errors", "in_errors", "out_errors", "in_discards", "out_discard", "in_unknown_protos"]

/-- Lookup pre_learnt_interfaces[device][iname].counters[c]; none models the
KeyError raised when any level of the chain is missing. -/
def preCounter (preDev : DevIntfs) (iname c : String) : Option Int :=
  ((preDev.lookup iname).bind (·.counters)).bind (fun cs => cs.vals.lookup c)

/-- The per-interface counter loop of interface_errors.interface_errors
(lines 165-198), with the failed_counters pre/post accumulators. -/
def errorsGo (post : Bool) (dname iname : String) (preDev : DevIntfs) (cs : CountersData) :
    List String → List (String × Int) → List (String × Int) → Verdict
  | [], fpre, fpost =>
    if fpost ≠ [] then
      .failed ("Device: " ++ dname ++ ", Interface: " ++ iname ++ ", counters " ++
        toString (fpost.map Prod.fst) ++ " differ between pre and post verifications")
    else if fpre ≠ [] then
      .failed ("Device " ++ dname ++ ", Interface " ++ iname ++ ", has a count of " ++
        toString (fpre.map Prod.snd) ++ " for " ++ toString (fpre.map Prod.fst) ++ " counters")
    else
      .passed ("Device " ++ dname ++ " Interface " ++ iname ++ " has no count for error counters")
  | c :: rest, fpre, fpost =>
    match cs.vals.lookup c with
    | none => errorsGo post dname iname preDev cs rest fpre fpost
    | some v =>
      if 0 < v then
        if post then
          match preCounter preDev iname c with
          | none =>
            .failed ("No pre learnt information for " ++ dname ++ ", Interface " ++ iname ++
              ", counter " ++ c)
          | some pv =>
            if v ≠ pv then errorsGo post dname iname preDev cs rest fpre (fpost ++ [(c, v)])
            else errorsGo post dname iname preDev cs rest fpre fpost
        else errorsGo post dname iname preDev cs rest (fpre ++ [(c, v)]) fpost
      else errorsGo post dname iname preDev cs rest fpre fpost

/-- One interface step of interface_errors.interface_errors (lines 150-203). -/
def checkInterfaceErrors (post : Bool) (dname : String) (preDev : DevIntfs)
    (iname : String) (intf : InterfaceData) : Verdict :=
  match intf.counters with
  | none => .skipped ("Device " ++ dname ++ " Interface " ++ iname ++ " missing counters")
  | some cs => errorsGo post dname iname preDev cs counter_error_keys [] []

/-- One device step: every learnt interface gets its own sub-step with
continue_=True, so each interface yields a verdict. -/
def runDeviceInterfaceErrors (post : Bool) (dname : String) (preDev : DevIntfs)
    (intfs : DevIntfs) : List (String × Verdict) :=
  intfs.map fun iv => (iv.1, checkInterfaceErrors post dname preDev iv.1 iv.2)

def interfaceFileName (d : String) : String := d ++ "_interface.json"

/-- Read and parse a snapshot json file; none models both a missing file and
an unparsable one (the setup catches both with a bare except). -/
def readJson (fs : FS (Option DevIntfs)) (p : String) : Option DevIntfs :=
  (fs.files.lookup p).bind id

/-- interface_errors.setup (lines 123-139), post mode: for each device read
the post-stage file then the pre-stage file; a failure calls self.failed,
which aborts the whole setup section (modelled by .error). -/
def interfaceErrorsSetup (fs : FS (Option DevIntfs)) (pre post : String) :
    List String → Except String (List (String × DevIntfs) × List (String × DevIntfs))
  | [] => .ok ([], [])
  | d :: rest =>
    match readJson fs (joinPath post (interfaceFileName d)),
          readJson fs (joinPath pre (interfaceFileName d)) with
    | some cur, some base =>
      match interfaceErrorsSetup fs pre post rest with
      | .ok (l, pl) => .ok ((d, cur) :: l, (d, base) :: pl)
      | .error m => .error m
    | _, _ => .error ("Unable to read interface information for device " ++ d ++ " from json file")

/-- The interface_errors testcase in post mode: a failed setup blocks the
test section (no device is evaluated); otherwise every learnt device is
evaluated. -/
def runInterfaceErrorsTestcase (fs : FS (Option DevIntfs)) (pre post : String)
    (devices : List String) : Except String (List (String × List (String × Verdict))) :=
  match interfaceErrorsSetup fs pre post devices with
  | .error m => .error m
  | .ok (l, pl) =>
    .ok (l.map fun dev => (dev.1, runDeviceInterfaceErrors true dev.1 ((pl.lookup dev.1).getD []) dev.2))

def exceptIsOk : Except ε α → Bool
  | .ok _ => true
  | .error _ => false

/-! ## interface_or_traffic_down testcase (interface_verifications.py lines 206-327) -/

/-- The rate counters to check (line 213). -/
def rate_counters_keys : List String := ["in_rate_pkts", "out_rate_pkts"]

/-- down_oper_status_values = ("down") at line 217: the parentheses do not
make a tuple, so this is the plain string "down". -/
def down_oper_status_values : String := "down"

/-- Python membership needle in haystack on two strings: a contiguous
substring test. -/
def pyStrIn (needle haystack : String) : Bool :=
  decide (needle.data <:+: haystack.data)

/-- Lookup pre_learnt_interfaces[device][iname].oper_status; none models the
KeyError when the interface or the key is missing in the pre snapshot. -/
def preOperStatus (preDev : DevIntfs) (iname : String) : Option String :=
  (preDev.lookup iname).bind (·.oper_status)

/-- The oper_status block of interface_or_traffic_down (lines 250-276).
none means the block raised no result signal and the step body continues. -/
def statusPhase (post : Bool) (dname : String) (preDev : DevIntfs)
    (iname : String) (intf : InterfaceData) : Option Verdict :=
  match intf.oper_status with
  | none => none
  | some st =>
    if pyStrIn st down_oper_status_values then
      if post then
        match preOperStatus preDev iname with
        | none =>
          some (.failed ("No pre learnt information for " ++ dname ++ ", Interface " ++
            iname ++ ", oper_status"))
        | some pst =>
          if st ≠ pst then
            some (.failed ("Device " ++ dname ++ ", Interface " ++ iname ++
              ", Pre and Post oper_status are different. Pre: " ++ pst ++ ", Post: " ++ st))
          else none
      else
        match intf.enabled with
        | none => some (.errored "KeyError: enabled")
        | some e =>
          if e then
            some (.failed ("Device " ++ dname ++ ", Interface " ++ iname ++ " is down"))
          else
            some (.skipped ("Device " ++ dname ++ " Interface " ++ iname ++ " is in admin-down"))
    else none

/-- Lookup pre_learnt_interfaces[device][iname].counters.rate[c]; none models
the KeyError when any level of the chain is missing. -/
def preRate (preDev : DevIntfs) (iname c : String) : Option Int :=
  (((preDev.lookup iname).bind (·.counters)).bind (·.rate)).bind (fun r => r.lookup c)

/-- The rate counter loop of interface_or_traffic_down (lines 292-326).
When a post-stage zero rate differs from its pre value, line 301 executes
failed_rate_counters[post][counter] = interface[counters][counter] where the
name counter is not bound in this method, so Python raises a NameError that
the surrounding except KeyError does not catch: the step is errored.
Consequently the fpost accumulator can never become nonempty; the base case
keeps the source's dead branch, whose message building at line 317 would
itself raise a KeyError. -/
def rateGo (post : Bool) (dname iname : String) (preDev : DevIntfs)
    (rates : List (String × Int)) :
    List String → List (String × Int) → List (String × Int) → Option Verdict
  | [], fpre, fpost =>
    if fpost ≠ [] then some (.errored "KeyError")
    else if fpre ≠ [] then
      some (.failed ("Device " ++ dname ++ ", Interface " ++ iname ++ ", has a count of " ++
        toString (fpre.map Prod.snd) ++ " for " ++ toString (fpre.map Prod.fst) ++ " counters"))
    else some (.passed ("Device " ++ dname ++ " Interface " ++ iname ++ " has traffic counters"))
  | c :: rest, fpre, fpost =>
    match rates.lookup c with
    | none => rateGo post dname iname preDev rates rest fpre fpost
    | some v =>
      if v == 0 then
        if post then
          match preRate preDev iname c with
          | none =>
            some (.failed ("No pre learnt information for " ++ dname ++ ", Interface " ++
              iname ++ ", rate counter " ++ c))
          | some pv =>
            if v ≠ pv then some (.errored "NameError: name counter is not defined")
            else rateGo post dname iname preDev rates rest fpre fpost
        else rateGo post dname iname preDev rates rest (fpre ++ [(c, v)]) fpost
      else rateGo post dname iname preDev rates rest fpre fpost

/-- The counters/rate block of interface_or_traffic_down (lines 279-326).
none when the interface has no counters key or no rate key: the step body
then falls off the end. -/
def ratePhase (post : Bool) (dname : String) (preDev : DevIntfs)
    (iname : String) (intf : InterfaceData) : Option Verdict :=
  match intf.counters with
  | none => none
  | some cs =>
    match cs.rate with
    | none => none
    | some rates => rateGo post dname iname preDev rates rate_counters_keys [] []

/-- One interface step of interface_or_traffic_down: the status block runs
first; a result signal or exception there ends the step, otherwise the rate
block runs; a step body that finishes without a signal is passed by default. -/
def checkInterfaceOrTrafficDown (post : Bool) (dname : String) (preDev : DevIntfs)
    (iname : String) (intf : InterfaceData) : Verdict :=
  match statusPhase post dname preDev iname intf with
  | some v => v
  | none =>
    match ratePhase post dname preDev iname intf with
    | some v => v
    | none => .passed ""

/-- One device step of interface_or_traffic_down: every learnt interface
gets its own sub-step with continue_=True. -/
def runDeviceTrafficDown (post : Bool) (dname : String) (preDev : DevIntfs)
    (intfs : DevIntfs) : List (String × Verdict) :=
  intfs.map fun iv => (iv.1, checkInterfaceOrTrafficDown post dname preDev iv.1 iv.2)

/-! ## CommonSetup capture pipelines -/

/-- verify_pre_directory of interface_verifications.py (lines 28-38,
identical in config_verifications.py): in post mode only os.path.exists is
consulted. true means the subsection passed or was skipped; false means it
failed, which blocks the remaining CommonSetup subsections. -/
def verifyPreDirectoryIV (fs : FS α) (pre : String) (post : Option String) : Bool :=
  match post with
  | none => true
  | some _ => pathExists fs pre

/-- verify_pre_directory of common_setup_cleanup.py (lines 28-38): this
variant requires os.path.exists(pre) and os.path.isdir(pre). -/
def verifyPreDirectoryCSC (fs : FS α) (pre : String) (post : Option String) : Bool :=
  match post with
  | none => true
  | some _ => pathExists fs pre && isDir fs pre

/-- The CommonSetup pipeline of interface_verifications.py: verify the pre
directory, then create_report_directory (whose skip records
report_directory_alredy_exist), then learn_interface, which is skipped
entirely when the report directory already existed and otherwise writes one
snapshot file per captured device. none models the run aborting in
verify_pre_directory before any capture work. -/
def reportDirectory (pre : String) (post : Option String) : String :=
  match post with
  | some p => p
  | none => pre

def interfaceCaptureRun (fs : FS String) (pre : String) (post : Option String)
    (captures : List (String × String)) : Option (FS String) :=
  if verifyPreDirectoryIV fs pre post then
    if pathExists fs (reportDirectory pre post) then some fs
    else
      some (captures.foldl
        (fun a dc => writeFile a (joinPath (reportDirectory pre post) (interfaceFileName dc.1)) dc.2)
        (mkdir fs (reportDirectory pre post)))
  else none

def configFileName (d ct : String) : String := d ++ "_" ++ ct ++ ".json"

/-- The CommonSetup pipeline of config_verifications.py as executed from the
job files pre_check.py/post_check.py: there __name__ is not __main__, so the
learn_configs skip condition report_directory_alredy_exist and
__name__ == "__main__" (line 101) is false and learn_configs always runs,
re-writing the snapshot files of an already existing report directory. -/
def configCaptureRunJob (fs : FS String) (pre : String) (post : Option String)
    (captures : List (String × String × String)) : Option (FS String) :=
  if verifyPreDirectoryIV fs pre post then
    some (captures.foldl
      (fun a dc => writeFile a (joinPath (reportDirectory pre post) (configFileName dc.1 dc.2.1)) dc.2.2)
      (if pathExists fs (reportDirectory pre post) then fs else mkdir fs (reportDirectory pre post)))
  else none

/-! ## Normalizer (config_verifications.py lines 32-34 and 133-137) -/

/-- A JSON-shaped configuration tree: leaves and string-keyed objects. -/
inductive Doc where
  | atom : Doc
  | obj : List (String × Doc) → Doc

/-- Does any key anywhere in the tree match the rule. A rule abstracts one
of the keys_regex_to_delete_from_config regexes as a key predicate. -/
def docHasKey (p : String → Bool) : Doc → Bool
  | .atom => false
  | .obj [] => false
  | .obj ((k, v) :: rest) => p k || docHasKey p v || docHasKey p (.obj rest)

/-- The top-level keys of the document that the Dq query
Dq(config).contains(rule, regex=True).reconstruct() would retain: those
whose subtree holds a matching key. -/
def matchingTopKeys (p : String → Bool) (kvs : List (String × Doc)) : List String :=
  (kvs.filter fun kv => p kv.1 || docHasKey p kv.2).map Prod.fst

/-- One pass of lines 134-137: if the rule matches anything, only the first
top-level key of the reconstructed result (t[0]) is deleted from the config. -/
def applyRule (p : String → Bool) (kvs : List (String × Doc)) : List (String × Doc) :=
  match matchingTopKeys p kvs with
  | [] => kvs
  | k :: _ => kvs.filter fun kv => kv.1 ≠ k

/-- The delete-unwanted-keys loop (lines 133-137) over every configured rule. -/
def normalizeConfig (rules : List (String → Bool)) (kvs : List (String × Doc)) :
    List (String × Doc) :=
  rules.foldl (fun d r => applyRule r d) kvs

/-- Concrete rule set for the idempotence counterexample: one rule matching
the two timestamp-like keys ts1 and ts2. -/
def c8rules : List (String → Bool) := [fun k => k == "ts1" || k == "ts2"]

/-- Concrete document with two top-level keys matched by the same rule. -/
def c8doc : List (String × Doc) := [("ts1", .atom), ("ts2", .atom), ("hostname", .atom)]

/-- Concrete rule set in which each rule matches at most one top-level key. -/
def c8rulesSingle : List (String → Bool) := [fun k => k == "ts1"]

/-- Concrete document with a single key matched by the single rule. -/
def c8docSingle : List (String × Doc) := [("ts1", .atom), ("hostname", .atom)]

/-! ## Helper lemmas -/

theorem pathExists_writeFile (fs : FS α) (p q : String) (c : α)
    (h : pathExists fs q = true) : pathExists (writeFile fs p c) q = true := by
  simp only [pathExists, writeFile] at *
  by_cases hqp : q = p
  · subst hqp
    simp [List.lookup]
  · have hne : (q == p) = false := by simp [hqp]
    simpa [List.lookup, hne] using h

theorem pathExists_mkdir (fs : FS α) (p q : String)
    (h : pathExists fs q = true) : pathExists (mkdir fs p) q = true := by
  simp only [pathExists, mkdir] at *
  simp at h ⊢
  tauto

theorem pathExists_mkdir_self (fs : FS α) (p : String) :
    pathExists (mkdir fs p) p = true := by
  simp [pathExists, mkdir, List.contains_cons]

theorem pathExists_foldl_writes (f : β → String) (g : β → α) (q : String) :
    ∀ (caps : List β) (fs : FS α), pathExists fs q = true →
      pathExists (caps.foldl (fun a dc => writeFile a (f dc) (g dc)) fs) q = true := by
  intro caps
  induction caps with
  | nil => intro fs h; exact h
  | cons dc rest ih =>
    intro fs h
    exact ih _ (pathExists_writeFile _ _ _ _ h)

/-! ## Claims -/

/-- Claim C1, counterexample. The config_verifications capture, when run the
way the repository's job files run it, re-executes learn_configs even though
the report directory (and the snapshot file) already exists, and the second
write replaces the persisted content: content A persisted by the first run
becomes content B after the second attempt, so a second write attempt for an
existing snapshot key is an overwrite, not a no-op. -/
theorem config_rerun_overwrites_snapshot :
    ((configCaptureRunJob ⟨[], []⟩ "pre_check" none [("r1", "config_running", "A")]).bind
      (fun fs1 => readFile fs1 "pre_check/r1_config_running.json")) = some "A"
    ∧ ((configCaptureRunJob ⟨[], []⟩ "pre_check" none [("r1", "config_running", "A")]).bind
      (fun fs1 => (configCaptureRunJob fs1 "pre_check" none [("r1", "config_running", "B")]).bind
        (fun fs2 => readFile fs2 "pre_check/r1_config_running.json"))) = some "B" :=
  ⟨rfl, rfl⟩

/-- Claim C1, amended: write-once holds for the interface_verifications
pipeline, where it is enforced at report-directory granularity: a rerun of
the capture pipeline against a stage directory that the first run created
(or that already existed) skips learn_interface entirely, so no snapshot
file is rewritten and the persisted content after the second attempt is
exactly the content after the first. The config_verifications pipeline,
run from the job files, violates write-once (see the counterexample). -/
theorem interface_capture_rerun_noop (fs : FS String) (pre : String)
    (post : Option String) (c1 c2 : List (String × String)) :
    (interfaceCaptureRun fs pre post c1).bind
      (fun fs1 => interfaceCaptureRun fs1 pre post c2) = interfaceCaptureRun fs pre post c1 := by
  unfold interfaceCaptureRun
  by_cases hv : verifyPreDirectoryIV fs pre post = true
  · simp only [hv, if_true]
    by_cases hrd : pathExists fs (reportDirectory pre post) = true
    · simp [hrd, hv]
    · simp only [hrd, if_false, Bool.false_eq_true, Option.bind_some]
      have hrd2 : pathExists
          (List.foldl (fun a dc => writeFile a (joinPath (reportDirectory pre post) (interfaceFileName dc.1)) dc.2) (mkdir fs (reportDirectory pre post)) c1)
          (reportDirectory pre post) = true :=
        pathExists_foldl_writes _ _ _ c1 _ (pathExists_mkdir_self _ _)
      have hv2 : verifyPreDirectoryIV
          (List.foldl (fun a dc => writeFile a (joinPath (reportDirectory pre post) (interfaceFileName dc.1)) dc.2) (mkdir fs (reportDirectory pre post)) c1)
          pre post = true := by
        unfold verifyPreDirectoryIV at *
        match post with
        | none => rfl
        | some p =>
          exact pathExists_foldl_writes _ _ _ c1 _ (pathExists_mkdir _ _ _ hv)
      simp [hv2, hrd2]
  · simp [hv]

/-- Claim C7, counterexample. In interface_verifications.py (and
config_verifications.py) verify_pre_directory only calls os.path.exists:
with a post stage requested and a pre path that exists but is a regular
file rather than a directory, the precondition passes and the run proceeds
to capture work — the post-stage snapshot file gets written. -/
theorem nondirectory_pre_path_passes_precheck :
    isDir (⟨[], [("pre_check", "not a directory")]⟩ : FS String) "pre_check" = false
    ∧ ((interfaceCaptureRun ⟨[], [("pre_check", "not a directory")]⟩ "pre_check"
        (some "post_check") [("r1", "doc")]).bind
      (fun f => readFile f "post_check/r1_interface.json")) = some "doc" :=
  ⟨rfl, rfl⟩

/-- Claim C7, amended: with a post stage requested, a pre path that does not
exist at all makes the run fail in verify_pre_directory before any capture
work in every script variant; but only common_setup_cleanup.py additionally
requires the pre path to be a directory — interface_verifications.py and
config_verifications.py accept any existing path (see the counterexample). -/
theorem pre_directory_precondition_characterization (fs : FS String)
    (pre p : String) (caps : List (String × String)) :
    (pathExists fs pre = false → interfaceCaptureRun fs pre (some p) caps = none)
    ∧ (isDir fs pre = false → verifyPreDirectoryCSC fs pre (some p) = false) := by
  constructor
  · intro h
    simp [interfaceCaptureRun, verifyPreDirectoryIV, h]
  · intro h
    simp [verifyPreDirectoryCSC, h]

/-- Claim C7, witness for the amended theorem: on an empty filesystem the
post run aborts before capture, and the common_setup_cleanup variant rejects
a pre path that exists only as a regular file. -/
theorem pre_directory_precondition_witness :
    interfaceCaptureRun (⟨[], []⟩ : FS String) "pre_check" (some "post_check")
      [("r1", "doc")] = none
    ∧ verifyPreDirectoryCSC (⟨[], [("pre_check", "x")]⟩ : FS String) "pre_check"
      (some "post_check") = false :=
  ⟨(pre_directory_precondition_characterization ⟨[], []⟩ "pre_check" "post_check"
      [("r1", "doc")]).1 (by decide),
   (pre_directory_precondition_characterization ⟨[], [("pre_check", "x")]⟩ "pre_check"
      "post_check" []).2 (by decide)⟩

/-- Claim C4: evaluation of the code at the failing input. In the post
stage with pre rate in_rate_pkts = 100 and post rate 0, line 301 of
interface_verifications.py references the unbound name counter, so instead
of the fail verdict the spec requires, the step raises a NameError that the
surrounding except KeyError does not catch and is errored. -/
theorem rate_stall_post_raises_nameerror :
    checkInterfaceOrTrafficDown true "r1"
      [("Gi1", ⟨none, none, none, some ⟨[], some [("in_rate_pkts", 100)]⟩⟩)]
      "Gi1" ⟨none, none, none, some ⟨[], some [("in_rate_pkts", 0)]⟩⟩
      = .errored "NameError: name counter is not defined"
    ∧ (checkInterfaceOrTrafficDown true "r1"
      [("Gi1", ⟨none, none, none, some ⟨[], some [("in_rate_pkts", 100)]⟩⟩)]
      "Gi1" ⟨none, none, none, some ⟨[], some [("in_rate_pkts", 0)]⟩⟩).isFail = false :=
  ⟨rfl, rfl⟩

/-- Claim C2, counterexample. Devices r1 and r2 are both present in the
post stage and r2 also has its pre-stage snapshot, but r1's pre-stage file
is missing: setup calls self.failed, the whole testcase is blocked, r1 gets
no per-device fail verdict and r2 — although fully readable — is never
evaluated. The claimed failure isolation across devices does not hold. -/
theorem missing_pre_file_aborts_testcase :
    runInterfaceErrorsTestcase
      ⟨[], [("post_check/r1_interface.json", some []),
            ("post_check/r2_interface.json", some []),
            ("pre_check/r2_interface.json", some [])]⟩
      "pre_check" "post_check" ["r1", "r2"]
      = .error "Unable to read interface information for device r1 from json file" :=
  rfl

/-- Claim C3, counterexample. Post stage, counter in_crc_errors is 0 in the
post snapshot and 5 in the pre snapshot: the claim requires a fail verdict,
but the code only compares counters whose post value is strictly positive,
so the interface passes. -/
theorem post_zero_counter_with_nonzero_pre_passes :
    preCounter [("Gi1", ⟨none, none, none, some ⟨[("in_crc_errors", 5)], none⟩⟩)]
      "Gi1" "in_crc_errors" = some 5
    ∧ checkInterfaceErrors true "r1"
      [("Gi1", ⟨none, none, none, some ⟨[("in_crc_errors", 5)], none⟩⟩)]
      "Gi1" ⟨none, none, none, some ⟨[("in_crc_errors", 0)], none⟩⟩
      = .passed "Device r1 Interface Gi1 has no count for error counters" :=
  ⟨rfl, rfl⟩

/-- Claim C5, counterexample. In pre-only mode an enabled interface whose
oper_status is "do" — which is not "down", so by the claim it must pass —
takes the down branch of the substring membership test and fails. -/
theorem substring_status_do_fails_pre_mode :
    checkInterfaceOrTrafficDown false "r1" [] "Gi1" ⟨some "do", some true, none, none⟩
      = .failed "Device r1, Interface Gi1 is down" :=
  rfl

/-- Claim C6, counterexample. Pre oper_status "down", post oper_status "up":
the status changed between the stages, so the claim requires a fail verdict;
but the comparison only runs when the post status lies in "down", and "up"
is not a substring of "down", so the interface passes. -/
theorem status_change_down_to_up_passes :
    checkInterfaceOrTrafficDown true "r1" [("Gi1", ⟨some "down", none, none, none⟩)]
      "Gi1" ⟨some "up", none, none, none⟩ = .passed "" :=
  rfl

/-- Claim C9, counterexample. There is no exclusion list anywhere in the
code: an interface named Null0 is evaluated like any other and receives
fail verdicts from both the counter rule and the rate rule. -/
theorem null_interface_not_excluded :
    (checkInterfaceErrors false "r1" [] "Null0"
      ⟨none, none, none, some ⟨[("in_errors", 5)], none⟩⟩).isFail = true
    ∧ (checkInterfaceOrTrafficDown false "r1" [] "Null0"
      ⟨some "up", some true, none, some ⟨[], some [("in_rate_pkts", 0)]⟩⟩).isFail = true :=
  ⟨rfl, rfl⟩

/-- Claim C9, amended: the engine has no name-based exclusion; both
testcases iterate over every learnt interface and each interface, whatever
its name, receives exactly one verdict from each rule step. -/
theorem every_interface_receives_verdict (post : Bool) (dname : String)
    (preDev intfs : DevIntfs) :
    (runDeviceInterfaceErrors post dname preDev intfs).map Prod.fst = intfs.map Prod.fst
    ∧ (runDeviceTrafficDown post dname preDev intfs).map Prod.fst = intfs.map Prod.fst := by
  constructor <;>
    simp [runDeviceInterfaceErrors, runDeviceTrafficDown, List.map_map, Function.comp]

/-- Claim C10: because down_oper_status_values is the bare string "down",
the membership test on oper_status is a contiguous-substring check, in both
the pre-only and the post branch of the status rule; in particular "do",
"own" and the empty string take the down branch while "up" does not. -/
theorem down_membership_is_substring_check :
    (∀ st : String,
      (pyStrIn st down_oper_status_values = true ↔ st.data <:+: "down".data)
      ∧ ((statusPhase false "r1" [] "Gi1" ⟨some st, some true, none, none⟩).isSome = true ↔
          st.data <:+: "down".data)
      ∧ ((statusPhase true "r1" [] "Gi1" ⟨some st, none, none, none⟩).isSome = true ↔
          st.data <:+: "down".data))
    ∧ pyStrIn "do" down_oper_status_values = true
    ∧ pyStrIn "own" down_oper_status_values = true
    ∧ pyStrIn "" down_oper_status_values = true
    ∧ pyStrIn "up" down_oper_status_values = false := by
  refine ⟨fun st => ?_, by decide, by decide, by decide, by decide⟩
  have hb : pyStrIn st down_oper_status_values = true ↔ st.data <:+: "down".data := by
    simp [pyStrIn, down_oper_status_values]
  refine ⟨hb, ?_, ?_⟩ <;>
  · rw [← hb]
    by_cases hd : pyStrIn st down_oper_status_values = true <;>
      simp [statusPhase, hd, preOperStatus]

/-- Claim C5, amended: in pre-only mode an oper_status that is a substring
of "down" (not only "down" itself) takes the down branch — fail when
enabled, skip with the admin-down reason when disabled — while an
oper_status that is not a substring of "down" produces no status verdict,
and the step passes when the interface carries no rate data. -/
theorem status_not_down_pre_mode_characterization
    (dname iname : String) (preDev : DevIntfs) (st : String) (e : Bool)
    (dm : Option String) (cnt : Option CountersData) :
    (st.data <:+: "down".data → e = true →
      statusPhase false dname preDev iname ⟨some st, some e, dm, cnt⟩ =
        some (.failed ("Device " ++ dname ++ ", Interface " ++ iname ++ " is down")))
    ∧ (st.data <:+: "down".data → e = false →
      statusPhase false dname preDev iname ⟨some st, some e, dm, cnt⟩ =
        some (.skipped ("Device " ++ dname ++ " Interface " ++ iname ++ " is in admin-down")))
    ∧ (¬ st.data <:+: "down".data →
      checkInterfaceOrTrafficDown false dname preDev iname ⟨some st, some e, dm, none⟩ =
        .passed "") := by
  have hb : pyStrIn st down_oper_status_values = true ↔ st.data <:+: "down".data := by
    simp [pyStrIn, down_oper_status_values]
  refine ⟨fun hs he => ?_, fun hs he => ?_, fun hs => ?_⟩
  · subst he
    simp [statusPhase, hb.mpr hs]
  · subst he
    simp [statusPhase, hb.mpr hs]
  · have hd : pyStrIn st down_oper_status_values = false := by
      rw [Bool.eq_false_iff, Ne, hb]
      exact hs
    simp [checkInterfaceOrTrafficDown, statusPhase, ratePhase, hd]

/-- Claim C5, witness for the amended theorem at concrete inputs. -/
theorem status_not_down_pre_mode_witness :
    statusPhase false "r1" [] "Gi1" ⟨some "down", some true, none, none⟩ =
      some (.failed "Device r1, Interface Gi1 is down")
    ∧ statusPhase false "r1" [] "Gi2" ⟨some "down", some false, none, none⟩ =
      some (.skipped "Device r1 Interface Gi2 is in admin-down")
    ∧ checkInterfaceOrTrafficDown false "r1" [] "Gi3" ⟨some "up", some true, none, none⟩ =
      .passed "" :=
  ⟨(status_not_down_pre_mode_characterization "r1" "Gi1" [] "down" true none none).1
      (by decide) rfl,
   (status_not_down_pre_mode_characterization "r1" "Gi2" [] "down" false none none).2.1
      (by decide) rfl,
   (status_not_down_pre_mode_characterization "r1" "Gi3" [] "up" true none none).2.2
      (by decide)⟩

/-- Claim C6, amended: in the post stage the status rule fails an interface
if and only if its post oper_status is a substring of "down" AND the paired
pre oper_status is missing or different; a status change whose post value is
not a substring of "down" (such as down to up) produces no status verdict. -/
theorem status_not_down_post_mode_fail_iff
    (dname iname : String) (preDev : DevIntfs) (st : String)
    (en : Option Bool) (dm : Option String) (cnt : Option CountersData) :
    ((∃ m, statusPhase true dname preDev iname ⟨some st, en, dm, cnt⟩ = some (.failed m)) ↔
      (st.data <:+: "down".data ∧ preOperStatus preDev iname ≠ some st))
    ∧ (statusPhase true dname preDev iname ⟨some st, en, dm, cnt⟩ = none ↔
      ¬ (st.data <:+: "down".data ∧ preOperStatus preDev iname ≠ some st)) := by
  have hb : pyStrIn st down_oper_status_values = true ↔ st.data <:+: "down".data := by
    simp [pyStrIn, down_oper_status_values]
  by_cases hd : pyStrIn st down_oper_status_values = true
  · cases hp : preOperStatus preDev iname with
    | none => simp [statusPhase, hd, hp, hb.mp hd]
    | some pst =>
      by_cases hst : st = pst
      · subst hst
        simp [statusPhase, hd, hp, hb.mp hd]
      · simp [statusPhase, hd, hp, hb.mp hd, hst, Ne.symm hst]
  · have hs : ¬ st.data <:+: "down".data := by
      rw [← hb]
      exact hd
    simp [statusPhase, hd, hs]

/-- Characterization of the post-stage counter loop: starting from an empty
pre accumulator, the step fails iff the post accumulator is already nonempty
or some remaining tracked counter has a strictly positive post value whose
pre baseline is missing or different. -/
theorem errorsGo_cons_skip (post : Bool) (dname iname : String) (preDev : DevIntfs)
    (cs : CountersData) (c : String) (rest : List String)
    (fpre fpost : List (String × Int))
    (h : cs.vals.lookup c = none) :
    errorsGo post dname iname preDev cs (c :: rest) fpre fpost =
      errorsGo post dname iname preDev cs rest fpre fpost := by
  simp [errorsGo, h]

theorem errorsGo_cons_nonpos (post : Bool) (dname iname : String) (preDev : DevIntfs)
    (cs : CountersData) (c : String) (rest : List String)
    (fpre fpost : List (String × Int)) (v : Int)
    (h : cs.vals.lookup c = some v) (hv : ¬ 0 < v) :
    errorsGo post dname iname preDev cs (c :: rest) fpre fpost =
      errorsGo post dname iname preDev cs rest fpre fpost := by
  simp [errorsGo, h, hv]

theorem errorsGo_cons_nopre (dname iname : String) (preDev : DevIntfs)
    (cs : CountersData) (c : String) (rest : List String)
    (fpre fpost : List (String × Int)) (v : Int)
    (h : cs.vals.lookup c = some v) (hv : 0 < v)
    (hp : preCounter preDev iname c = none) :
    errorsGo true dname iname preDev cs (c :: rest) fpre fpost =
      .failed ("No pre learnt information for " ++ dname ++ ", Interface " ++ iname ++
        ", counter " ++ c) := by
  simp [errorsGo, h, hv, hp]

theorem errorsGo_cons_pre_eq (dname iname : String) (preDev : DevIntfs)
    (cs : CountersData) (c : String) (rest : List String)
    (fpre fpost : List (String × Int)) (v : Int)
    (h : cs.vals.lookup c = some v) (hv : 0 < v)
    (hp : preCounter preDev iname c = some v) :
    errorsGo true dname iname preDev cs (c :: rest) fpre fpost =
      errorsGo true dname iname preDev cs rest fpre fpost := by
  simp [errorsGo, h, hv, hp]

theorem errorsGo_cons_pre_ne (dname iname : String) (preDev : DevIntfs)
    (cs : CountersData) (c : String) (rest : List String)
    (fpre fpost : List (String × Int)) (v pv : Int)
    (h : cs.vals.lookup c = some v) (hv : 0 < v)
    (hp : preCounter preDev iname c = some pv) (hne : v ≠ pv) :
    errorsGo true dname iname preDev cs (c :: rest) fpre fpost =
      errorsGo true dname iname preDev cs rest fpre (fpost ++ [(c, v)]) := by
  simp [errorsGo, h, hv, hp, hne]

theorem errorsGo_post_fail_iff (dname iname : String) (preDev : DevIntfs)
    (cs : CountersData) :
    ∀ (keys : List String) (fpost : List (String × Int)),
      (errorsGo true dname iname preDev cs keys [] fpost).isFail = true ↔
        (fpost ≠ [] ∨ ∃ c ∈ keys, ∃ v, cs.vals.lookup c = some v ∧ 0 < v ∧
          preCounter preDev iname c ≠ some v) := by
  intro keys
  induction keys with
  | nil =>
    intro fpost
    by_cases hf : fpost = []
    · subst hf
      simp [errorsGo, Verdict.isFail]
    · simp [errorsGo, hf, Verdict.isFail]
  | cons c rest ih =>
    intro fpost
    cases hl : cs.vals.lookup c with
    | none =>
      rw [errorsGo_cons_skip _ _ _ _ _ _ _ _ _ hl, ih fpost]
      simp [List.exists_mem_cons_iff, hl]
    | some v =>
      by_cases hpos : 0 < v
      · cases hp : preCounter preDev iname c with
        | none =>
          rw [errorsGo_cons_nopre _ _ _ _ _ _ _ _ _ hl hpos hp]
          simp [Verdict.isFail, List.exists_mem_cons_iff, hl, hp, hpos]
        | some pv =>
          by_cases hvpv : v = pv
          · subst hvpv
            rw [errorsGo_cons_pre_eq _ _ _ _ _ _ _ _ _ hl hpos hp, ih fpost]
            simp [List.exists_mem_cons_iff, hl, hp, hpos]
          · have hpv : pv ≠ v := Ne.symm hvpv
            rw [errorsGo_cons_pre_ne _ _ _ _ _ _ _ _ _ _ hl hpos hp hvpv,
              ih (fpost ++ [(c, v)])]
            simp [List.exists_mem_cons_iff, hl, hp, hpos, hpv]
      · rw [errorsGo_cons_nonpos _ _ _ _ _ _ _ _ _ _ hl hpos, ih fpost]
        simp [List.exists_mem_cons_iff, hl, hpos]

/-- Claim C3, amended: in pre+post mode an interface with a counters record
fails iff some tracked error counter has a strictly positive post value
whose paired pre value is missing (the no-baseline fail) or different from
the post value. A post value of 0 is never compared at all, so a zero post
value paired with a nonzero pre value passes (see the counterexample). -/
theorem interface_errors_post_fail_iff (dname iname : String) (preDev : DevIntfs)
    (os : Option String) (en : Option Bool) (dm : Option String) (cs : CountersData) :
    (checkInterfaceErrors true dname preDev iname ⟨os, en, dm, some cs⟩).isFail = true ↔
      ∃ c ∈ counter_error_keys, ∃ v, cs.vals.lookup c = some v ∧ 0 < v ∧
        preCounter preDev iname c ≠ some v := by
  have h := errorsGo_post_fail_iff dname iname preDev cs counter_error_keys []
  simpa [checkInterfaceErrors] using h

/-- The interface_errors setup succeeds iff both stage snapshot files of
every device are present and parsable. -/
theorem interfaceErrorsSetup_ok_iff (fs : FS (Option DevIntfs)) (pre post : String) :
    ∀ devices : List String,
      exceptIsOk (interfaceErrorsSetup fs pre post devices) = true ↔
        ∀ d ∈ devices, (readJson fs (joinPath post (interfaceFileName d))).isSome = true ∧
          (readJson fs (joinPath pre (interfaceFileName d))).isSome = true := by
  intro devices
  induction devices with
  | nil => simp [interfaceErrorsSetup, exceptIsOk]
  | cons d rest ih =>
    cases hc : readJson fs (joinPath post (interfaceFileName d)) with
    | none => simp [interfaceErrorsSetup, hc, exceptIsOk, List.forall_mem_cons]
    | some cur =>
      cases hb : readJson fs (joinPath pre (interfaceFileName d)) with
      | none => simp [interfaceErrorsSetup, hc, hb, exceptIsOk, List.forall_mem_cons]
      | some base =>
        cases hr : interfaceErrorsSetup fs pre post rest with
        | error m =>
          have hrest := ih
          rw [hr] at hrest
          simp only [exceptIsOk, Bool.false_eq_true, false_iff] at hrest
          simp [interfaceErrorsSetup, hc, hb, hr, exceptIsOk, List.forall_mem_cons, hrest]
        | ok lp =>
          have hrest := ih
          rw [hr] at hrest
          simp only [exceptIsOk, true_iff] at hrest
          simp only [interfaceErrorsSetup, hc, hb, hr, exceptIsOk, List.forall_mem_cons,
            Option.isSome_some, true_and, true_iff]
          exact fun a ha => hrest a ha

/-- A successful interface_errors setup collects the devices in order. -/
theorem interfaceErrorsSetup_fst (fs : FS (Option DevIntfs)) (pre post : String) :
    ∀ (devices : List String) (l pl : List (String × DevIntfs)),
      interfaceErrorsSetup fs pre post devices = .ok (l, pl) → l.map Prod.fst = devices := by
  intro devices
  induction devices with
  | nil =>
    intro l pl h
    simp only [interfaceErrorsSetup, Except.ok.injEq, Prod.mk.injEq] at h
    rw [← h.1]
    rfl
  | cons d rest ih =>
    intro l pl h
    simp only [interfaceErrorsSetup] at h
    cases hc : readJson fs (joinPath post (interfaceFileName d)) with
    | none =>
      rw [hc] at h
      simp at h
    | some cur =>
      rw [hc] at h
      cases hb : readJson fs (joinPath pre (interfaceFileName d)) with
      | none =>
        rw [hb] at h
        simp at h
      | some base =>
        rw [hb] at h
        cases hr : interfaceErrorsSetup fs pre post rest with
        | error m =>
          rw [hr] at h
          simp at h
        | ok lp =>
          rcases lp with ⟨l2, pl2⟩
          rw [hr] at h
          simp only [Except.ok.injEq, Prod.mk.injEq] at h
          rw [← h.1]
          simp only [List.map_cons]
          rw [ih l2 pl2 hr]

/-- Claim C2, amended: a missing or unreadable pre- or post-stage snapshot
file for ANY device makes the interface_errors setup fail, which blocks the
testcase: no device at all is evaluated (the claimed per-device isolation
does not hold for snapshot files). Only when every device's files are
readable does the testcase run, and then it evaluates every device. -/
theorem interface_errors_run_characterization (fs : FS (Option DevIntfs))
    (pre post : String) (devices : List String) :
    (exceptIsOk (runInterfaceErrorsTestcase fs pre post devices) = true ↔
      ∀ d ∈ devices, (readJson fs (joinPath post (interfaceFileName d))).isSome = true ∧
        (readJson fs (joinPath pre (interfaceFileName d))).isSome = true)
    ∧ ∀ res, runInterfaceErrorsTestcase fs pre post devices = .ok res →
        res.map Prod.fst = devices := by
  constructor
  · rw [← interfaceErrorsSetup_ok_iff fs pre post devices]
    unfold runInterfaceErrorsTestcase
    cases hr : interfaceErrorsSetup fs pre post devices with
    | error m => simp [exceptIsOk]
    | ok lp =>
      rcases lp with ⟨l, pl⟩
      simp [exceptIsOk]
  · intro res h
    unfold runInterfaceErrorsTestcase at h
    cases hr : interfaceErrorsSetup fs pre post devices with
    | error m =>
      rw [hr] at h
      simp at h
    | ok lp =>
      rcases lp with ⟨l, pl⟩
      rw [hr] at h
      simp only [Except.ok.injEq] at h
      rw [← h]
      have hfst := interfaceErrorsSetup_fst fs pre post devices l pl hr
      simpa [List.map_map, Function.comp] using hfst

/-- Claim C2, witness for the amended theorem: with both files of device r1
readable, the testcase runs and evaluates exactly the device list. -/
theorem interface_errors_run_characterization_witness :
    runInterfaceErrorsTestcase
      ⟨[], [("post_check/r1_interface.json", some []), ("pre_check/r1_interface.json", some [])]⟩
      "pre_check" "post_check" ["r1"] = .ok [("r1", [])]
    ∧ ([(("r1" : String), ([] : List (String × Verdict)))]).map Prod.fst = ["r1"] :=
  ⟨rfl,
   (interface_errors_run_characterization
      ⟨[], [("post_check/r1_interface.json", some []), ("pre_check/r1_interface.json", some [])]⟩
      "pre_check" "post_check" ["r1"]).2 [("r1", [])] rfl⟩

/-- One normalization pass only shrinks the top-level entry list. -/
theorem applyRule_sublist (p : String → Bool) (d : List (String × Doc)) :
    List.Sublist (applyRule p d) d := by
  unfold applyRule
  cases matchingTopKeys p d with
  | nil => exact List.Sublist.refl d
  | cons k ks => exact List.filter_sublist d

theorem normalizeConfig_sublist (rules : List (String → Bool)) :
    ∀ d, List.Sublist (normalizeConfig rules d) d := by
  induction rules with
  | nil => intro d; exact List.Sublist.refl d
  | cons r rest ih =>
    intro d
    exact (ih (applyRule r d)).trans (applyRule_sublist r d)

theorem matchingTopKeys_sublist (p : String → Bool) {d1 d2 : List (String × Doc)}
    (h : List.Sublist d1 d2) : List.Sublist (matchingTopKeys p d1) (matchingTopKeys p d2) :=
  (h.filter _).map _

theorem matchingTopKeys_nil_mono (p : String → Bool) {d1 d2 : List (String × Doc)}
    (h : List.Sublist d1 d2) (h2 : matchingTopKeys p d2 = []) : matchingTopKeys p d1 = [] := by
  have hs := matchingTopKeys_sublist p h
  rw [h2] at hs
  exact List.sublist_nil.mp hs

theorem applyRule_of_noMatch (p : String → Bool) (d : List (String × Doc))
    (h : matchingTopKeys p d = []) : applyRule p d = d := by
  unfold applyRule
  rw [h]

/-- When a rule matches at most one top-level key, one pass removes every
match of that rule. -/
theorem applyRule_kills (p : String → Bool) (d : List (String × Doc))
    (h : (matchingTopKeys p d).length ≤ 1) :
    matchingTopKeys p (applyRule p d) = [] := by
  cases e : matchingTopKeys p d with
  | nil => rw [applyRule_of_noMatch p d e, e]
  | cons k ks =>
    have hks : ks = [] := by
      rw [e, List.length_cons] at h
      have : ks.length = 0 := by omega
      exact List.length_eq_zero.mp this
    subst hks
    unfold applyRule
    rw [e]
    unfold matchingTopKeys at e ⊢
    rw [List.map_eq_nil_iff, List.filter_eq_nil_iff]
    intro kv hkv
    obtain ⟨hmem, hne⟩ := List.mem_filter.mp hkv
    intro hm
    have hmm : kv ∈ d.filter (fun kv => p kv.1 || docHasKey p kv.2) :=
      List.mem_filter.mpr ⟨hmem, hm⟩
    have hfst : kv.1 ∈ (d.filter (fun kv => p kv.1 || docHasKey p kv.2)).map Prod.fst :=
      List.mem_map_of_mem _ hmm
    rw [e] at hfst
    have : kv.1 = k := by simpa using hfst
    exact absurd this (by simpa using hne)

/-- After a full normalization pass in which each rule had at most one
matching top-level key, no rule matches anything anymore. -/
theorem normalizeConfig_noMatch (rules : List (String → Bool)) :
    ∀ d, (∀ p ∈ rules, (matchingTopKeys p d).length ≤ 1) →
      ∀ p ∈ rules, matchingTopKeys p (normalizeConfig rules d) = [] := by
  induction rules with
  | nil =>
    intro d _ p hp
    exact absurd hp (List.not_mem_nil p)
  | cons q rest ih =>
    intro d h p hp
    rcases List.mem_cons.mp hp with rfl | hp2
    · have hkill := applyRule_kills p d (h p (List.mem_cons_self p rest))
      exact matchingTopKeys_nil_mono p (normalizeConfig_sublist rest (applyRule p d)) hkill
    · have hrest : ∀ r ∈ rest, (matchingTopKeys r (applyRule q d)).length ≤ 1 := by
        intro r hr
        exact le_trans (matchingTopKeys_sublist r (applyRule_sublist q d)).length_le
          (h r (List.mem_cons_of_mem q hr))
      exact ih (applyRule q d) hrest p hp2

theorem normalizeConfig_of_noMatch (rules : List (String → Bool)) :
    ∀ d, (∀ p ∈ rules, matchingTopKeys p d = []) → normalizeConfig rules d = d := by
  induction rules with
  | nil => intro d _; rfl
  | cons q rest ih =>
    intro d h
    show normalizeConfig rest (applyRule q d) = d
    rw [applyRule_of_noMatch q d (h q (List.mem_cons_self q rest))]
    exact ih d fun p hp => h p (List.mem_cons_of_mem q hp)

/-- Claim C8, counterexample. The rule matches the two top-level keys ts1
and ts2, but one pass of the deletion loop removes only t[0], the first
matching key: the first normalization leaves ts2 behind and the second
normalization removes it, so normalize(normalize(D, R), R) is not equal to
normalize(D, R) when a rule matches more than one key path. -/
theorem normalize_not_idempotent_on_double_match :
    (normalizeConfig c8rules c8doc).map Prod.fst = ["ts2", "hostname"]
    ∧ (normalizeConfig c8rules (normalizeConfig c8rules c8doc)).map Prod.fst = ["hostname"]
    ∧ normalizeConfig c8rules (normalizeConfig c8rules c8doc) ≠ normalizeConfig c8rules c8doc := by
  have h1 : (normalizeConfig c8rules c8doc).map Prod.fst = ["ts2", "hostname"] := by
    simp [normalizeConfig, c8rules, c8doc, applyRule, matchingTopKeys, docHasKey]
  have h2 : (normalizeConfig c8rules (normalizeConfig c8rules c8doc)).map Prod.fst = ["hostname"] := by
    simp [normalizeConfig, c8rules, c8doc, applyRule, matchingTopKeys, docHasKey]
  refine ⟨h1, h2, fun h => ?_⟩
  rw [congrArg (List.map Prod.fst) h, h1] at h2
  simp at h2

/-- Claim C8, amended: normalization deletes at most one (the first)
matching top-level key per rule per pass, so idempotence holds whenever
every rule matches at most one top-level key of the document; with a rule
matching two or more keys a second application removes further keys (see
the counterexample). -/
theorem normalize_idempotent_of_single_matches (rules : List (String → Bool))
    (d : List (String × Doc))
    (h : ∀ p ∈ rules, (matchingTopKeys p d).length ≤ 1) :
    normalizeConfig rules (normalizeConfig rules d) = normalizeConfig rules d :=
  normalizeConfig_of_noMatch rules _ (normalizeConfig_noMatch rules d h)

/-- Claim C8, witness for the amended theorem at a concrete single-match
rule set and document. -/
theorem normalize_idempotent_witness :
    (∀ p ∈ c8rulesSingle, (matchingTopKeys p c8docSingle).length ≤ 1)
    ∧ normalizeConfig c8rulesSingle (normalizeConfig c8rulesSingle c8docSingle) =
        normalizeConfig c8rulesSingle c8docSingle :=
  ⟨by simp [c8rulesSingle, c8docSingle, matchingTopKeys, docHasKey],
   normalize_idempotent_of_single_matches c8rulesSingle c8docSingle
     (by simp [c8rulesSingle, c8docSingle, matchingTopKeys, docHasKey])⟩
